import Mathlib

/-!
Verification of the Skinverse face-capture pipeline.

This file shallowly embeds the vision pipeline of the Skinverse client app:
the head-pose and lighting estimators (`src/utils/visionUtils.ts`), the
per-frame hysteresis stabilizer (`src/hooks/useMediaPipeFaceMesh.ts`), and
the capture state machine of the scan screen (`src/pages/ScanPage.tsx`).
JavaScript numbers are modelled as exact rationals; the transcendental
functions of JS `Math` (atan2, sqrt) are abstracted as a parameter record so
that every definition stays computable, and theorems that need a property of
`sqrt` state it as an explicit hypothesis.
-/

set_option maxRecDepth 10000

namespace Skinverse

/-- JavaScript `Math.round x`, which equals `⌊x + 1/2⌋` for every finite x. -/
def jsRound (x : ℚ) : ℤ := ⌊x + 1 / 2⌋

/-- The JS `Math` functions used by the vision code, kept abstract so the
embedding stays computable; `pi` stands for `Math.PI`. -/
structure JsMath where
  atan2 : ℚ → ℚ → ℚ
  sqrt : ℚ → ℚ
  pi : ℚ

/-- A MediaPipe normalized landmark: x, y in [0,1] relative to the frame,
z a relative depth. -/
structure Landmark where
  x : ℚ
  y : ℚ
  z : ℚ
  deriving DecidableEq, Repr

/-- Head pose angles in degrees, from `visionUtils.ts`. -/
structure HeadPose where
  yaw : ℚ
  pitch : ℚ
  roll : ℚ
  deriving DecidableEq, Repr

/-- Lighting quality result record, from `visionUtils.ts`; the three rounded
fields are integers because the source applies `Math.round`. -/
structure LightingQuality where
  isGood : Bool
  score : ℤ
  evenness : ℤ
  brightness : ℤ
  standardDeviation : ℚ
  deriving DecidableEq, Repr

/-- `LANDMARK_INDICES.NOSE_TIP` in `visionUtils.ts`. -/
def NOSE_TIP : ℕ := 1

/-- `LANDMARK_INDICES.CHIN`. -/
def CHIN : ℕ := 175

/-- `LANDMARK_INDICES.LEFT_EYE_LEFT`. -/
def LEFT_EYE_LEFT : ℕ := 33

/-- `LANDMARK_INDICES.RIGHT_EYE_RIGHT`. -/
def RIGHT_EYE_RIGHT : ℕ := 362

/-- `LANDMARK_INDICES.LEFT_MOUTH`. -/
def LEFT_MOUTH : ℕ := 61

/-- `LANDMARK_INDICES.RIGHT_MOUTH`. -/
def RIGHT_MOUTH : ℕ := 291

/-- `LANDMARK_INDICES.FOREHEAD_CENTER`. -/
def FOREHEAD_CENTER : ℕ := 9

/-- `LANDMARK_INDICES.LEFT_CHEEK`. -/
def LEFT_CHEEK : ℕ := 116

/-- `LANDMARK_INDICES.RIGHT_CHEEK`. -/
def RIGHT_CHEEK : ℕ := 345

/-- The neutral pose `{yaw: 0, pitch: 0, roll: 0}` returned on invalid input. -/
def neutralPose : HeadPose := ⟨0, 0, 0⟩

/-- `solvePnP` from `visionUtils.ts`.  Over ℚ no value is NaN, so the
source's final `isNaN` replacements are identities and are omitted; the
per-point null checks are subsumed by the length guard. -/
def solvePnP (m : JsMath) (imagePoints : List (ℚ × ℚ)) (focalLength : ℚ)
    (center : ℚ × ℚ) : HeadPose :=
  if imagePoints.length < 6 then neutralPose
  else
    let leftEye := imagePoints.getD 2 (0, 0)
    let rightEye := imagePoints.getD 3 (0, 0)
    let nose := imagePoints.getD 0 (0, 0)
    let eyeMidpoint : ℚ × ℚ := ((leftEye.1 + rightEye.1) / 2, (leftEye.2 + rightEye.2) / 2)
    let noseToCenter := nose.1 - center.1
    let eyesToCenter := eyeMidpoint.1 - center.1
    let safeFocalLength := max focalLength 1
    let yaw := m.atan2 (noseToCenter - eyesToCenter) safeFocalLength * (180 / m.pi)
    let noseToEyeDistance :=
      m.sqrt ((nose.1 - eyeMidpoint.1) ^ 2 + (nose.2 - eyeMidpoint.2) ^ 2)
    let safeDistance := max noseToEyeDistance (1 / 10)
    let pitch := m.atan2 (nose.2 - eyeMidpoint.2) safeDistance * (180 / m.pi)
    let deltaX := rightEye.1 - leftEye.1
    let deltaY := rightEye.2 - leftEye.2
    let eyeAngle := if deltaX ≠ 0 ∨ deltaY ≠ 0 then m.atan2 deltaY deltaX else 0
    let roll := eyeAngle * (180 / m.pi)
    ⟨yaw, pitch, roll⟩

/-- The `requiredIndices` list checked by `calculateHeadPose`. -/
def requiredIndices : List ℕ :=
  [NOSE_TIP, CHIN, LEFT_EYE_LEFT, RIGHT_EYE_RIGHT, LEFT_MOUTH, RIGHT_MOUTH]

/-- `calculateHeadPose` from `visionUtils.ts`: input validation, landmark
index validation, 2D point extraction, simplified PnP, and clamping.  A JS
`null` landmark array is subsumed by the empty-array guard. -/
def calculateHeadPose (m : JsMath) (landmarks : List Landmark)
    (imageWidth imageHeight : ℚ) : HeadPose :=
  if landmarks.length = 0 ∨ imageWidth ≤ 0 ∨ imageHeight ≤ 0 then neutralPose
  else
    let maxIndex : ℤ := (landmarks.length : ℤ) - 1
    if requiredIndices.any fun i => decide ((i : ℤ) > maxIndex) then neutralPose
    else
      let pt := fun (i : ℕ) =>
        let lm := landmarks.getD i ⟨0, 0, 0⟩
        (lm.x * imageWidth, lm.y * imageHeight)
      let imagePoints :=
        [pt NOSE_TIP, pt CHIN, pt LEFT_EYE_LEFT, pt RIGHT_EYE_RIGHT, pt LEFT_MOUTH, pt RIGHT_MOUTH]
      let focalLength := imageWidth
      let center := (imageWidth / 2, imageHeight / 2)
      let pose := solvePnP m imagePoints focalLength center
      ⟨max (-90) (min 90 pose.yaw),
       max (-90) (min 90 pose.pitch),
       max (-180) (min 180 pose.roll)⟩

/-- A sampling region as produced by `getLandmarkRegion`. -/
structure Region where
  x : ℤ
  y : ℤ
  width : ℤ
  height : ℤ
  deriving DecidableEq, Repr

/-- `getLandmarkRegion` from `visionUtils.ts`. -/
def getLandmarkRegion (landmark : Landmark) (imageWidth imageHeight : ℤ)
    (radius : ℤ) : Region :=
  let centerX := jsRound (landmark.x * (imageWidth : ℚ))
  let centerY := jsRound (landmark.y * (imageHeight : ℚ))
  { x := max 0 (centerX - radius)
    y := max 0 (centerY - radius)
    width := min (imageWidth - max 0 (centerX - radius)) (radius * 2)
    height := min (imageHeight - max 0 (centerY - radius)) (radius * 2) }

/-- Luminance `0.299 R + 0.587 G + 0.114 B` of the RGBA pixel at (x, y) of a
row-major pixel buffer, as read inside `calculateRegionBrightness`. -/
def luminanceAt (data : List ℕ) (imageWidth : ℤ) (x y : ℤ) : ℚ :=
  let index := ((y * imageWidth + x) * 4).toNat
  (299 * (data.getD index 0 : ℚ) + 587 * (data.getD (index + 1) 0 : ℚ) +
      114 * (data.getD (index + 2) 0 : ℚ)) / 1000

/-- The pixel coordinates visited by the double loop of
`calculateRegionBrightness`, with its in-bounds check. -/
def regionPixels (region : Region) (imageWidth imageHeight : ℤ) : List (ℤ × ℤ) :=
  ((List.range region.height.toNat).flatMap fun dy =>
      (List.range region.width.toNat).map fun dx =>
        (region.x + (dx : ℤ), region.y + (dy : ℤ))).filter
    fun p => decide (0 ≤ p.1) && decide (p.1 < imageWidth) &&
      decide (0 ≤ p.2) && decide (p.2 < imageHeight)

/-- `calculateRegionBrightness` from `visionUtils.ts`: average luminance over
the in-bounds pixels of the region, 0 when no pixel qualifies. -/
def calculateRegionBrightness (data : List ℕ) (region : Region)
    (imageWidth imageHeight : ℤ) : ℚ :=
  let lums := (regionPixels region imageWidth imageHeight).map
    fun p => luminanceAt data imageWidth p.1 p.2
  if lums.length > 0 then lums.sum / lums.length else 0

/-- `calculateVariance` from `visionUtils.ts`.  Over ℚ every value is finite,
so the source's NaN/Infinity filter keeps every element and is omitted. -/
def calculateVariance (values : List ℚ) : ℚ :=
  if values.length = 0 then 0
  else if values.length = 1 then 0
  else
    let mean := values.sum / values.length
    ((values.map fun v => (v - mean) ^ 2).sum) / values.length

/-- `calculateBrightnessScore` from `visionUtils.ts`: banded 20..100 score
with optimal band 100..180. -/
def calculateBrightnessScore (brightness : ℚ) : ℚ :=
  if 100 ≤ brightness ∧ brightness ≤ 180 then 100
  else if 80 ≤ brightness ∧ brightness ≤ 200 then 80
  else if 60 ≤ brightness ∧ brightness ≤ 220 then 60
  else if 40 ≤ brightness ∧ brightness ≤ 240 then 40
  else 20

/-- `calculateEvennessScore` from `visionUtils.ts`: banded 20..100 score
descending in the standard deviation. -/
def calculateEvennessScore (standardDeviation : ℚ) : ℚ :=
  if standardDeviation ≤ 10 then 100
  else if standardDeviation ≤ 20 then 80
  else if standardDeviation ≤ 30 then 60
  else if standardDeviation ≤ 40 then 40
  else 20

/-- The "bad" lighting result returned on every invalid-input or error path. -/
def badLighting : LightingQuality := ⟨false, 0, 0, 0, 0⟩

/-- Aggregation tail of `calculateLightingQuality`: given the three region
brightness values, compute mean, variance, standard deviation, the two
sub-scores, the overall score, and the permissive `isGood` gate. -/
def lightingFromRegionBrightness (m : JsMath) (values : List ℚ) : LightingQuality :=
  let averageBrightness := values.sum / values.length
  let brightnessVariance := calculateVariance values
  let standardDeviation := m.sqrt brightnessVariance
  let brightnessScore := calculateBrightnessScore averageBrightness
  let evennessScore := calculateEvennessScore standardDeviation
  let overallScore := (brightnessScore + evennessScore) / 2
  { isGood := decide (averageBrightness > 20 ∧ averageBrightness < 240)
    score := jsRound overallScore
    evenness := jsRound evennessScore
    brightness := jsRound averageBrightness
    standardDeviation := standardDeviation }

/-- `calculateLightingQuality` from `visionUtils.ts`.  The canvas context is
modelled by the pixel buffer it would return from `getImageData` (which for a
W×H frame has length 4·W·H). -/
def calculateLightingQuality (m : JsMath) (data : List ℕ)
    (landmarks : List Landmark) (imageWidth imageHeight : ℤ) : LightingQuality :=
  if landmarks.length = 0 ∨ imageWidth ≤ 0 ∨ imageHeight ≤ 0 then badLighting
  else if data.length = 0 then badLighting
  else
    let maxIndex : ℤ := (landmarks.length : ℤ) - 1
    if (FOREHEAD_CENTER : ℤ) > maxIndex ∨ (LEFT_CHEEK : ℤ) > maxIndex ∨
        (RIGHT_CHEEK : ℤ) > maxIndex then badLighting
    else
      let forehead :=
        getLandmarkRegion (landmarks.getD FOREHEAD_CENTER ⟨0, 0, 0⟩) imageWidth imageHeight 30
      let leftCheek :=
        getLandmarkRegion (landmarks.getD LEFT_CHEEK ⟨0, 0, 0⟩) imageWidth imageHeight 25
      let rightCheek :=
        getLandmarkRegion (landmarks.getD RIGHT_CHEEK ⟨0, 0, 0⟩) imageWidth imageHeight 25
      let values :=
        [calculateRegionBrightness data forehead imageWidth imageHeight,
         calculateRegionBrightness data leftCheek imageWidth imageHeight,
         calculateRegionBrightness data rightCheek imageWidth imageHeight]
      lightingFromRegionBrightness m values

/-- `isHeadPoseAcceptable` from `visionUtils.ts` with its liberal thresholds. -/
def isHeadPoseAcceptable (pose : HeadPose) : Bool :=
  decide (|pose.yaw| ≤ 80 ∧ |pose.pitch| ≤ 80 ∧ |pose.roll| ≤ 80)

/-- The three capture positions of the scan flow. -/
inductive CapturePosition where
  | center
  | left
  | right
  deriving DecidableEq, Repr

/-- `isNoseAlignedWithTarget` from `ScanPage.tsx`: the nose tip is MediaPipe
landmark 1, its normalized x is scaled by `window.innerWidth`; the center
target is a two-sided band of half-width 50, left and right are one-sided
threshold tests at 0.4 and 0.6 of the screen width (0.4 = 2/5, 0.6 = 3/5). -/
def isNoseAlignedWithTarget (landmarks : List Landmark)
    (requiredPosition : CapturePosition) (innerWidth : ℚ) : Bool :=
  if landmarks.length = 0 then false
  else
    match landmarks[1]? with
    | none => false
    | some noseTip =>
      let noseX := noseTip.x * innerWidth
      match requiredPosition with
      | .center =>
        let centerTarget := innerWidth * (1 / 2)
        let tolerance : ℚ := 50
        decide (|noseX - centerTarget| < tolerance)
      | .left =>
        let leftTarget := innerWidth * (2 / 5)
        decide (noseX ≤ leftTarget)
      | .right =>
        let rightTarget := innerWidth * (3 / 5)
        decide (noseX ≥ rightTarget)

/-- `STREAK_ON` in `useMediaPipeFaceMesh.ts`: frames required to turn on. -/
def STREAK_ON : ℕ := 5

/-- `STREAK_OFF` in `useMediaPipeFaceMesh.ts`: frames required to turn off. -/
def STREAK_OFF : ℕ := 3

/-- The raw per-frame readings consumed by one stabilizer update in
`onMediaPipeResults`: whether a face was detected this frame, and, when one
was, the raw pose-acceptable and lighting-good booleans (ignored by the code
on a no-face frame). -/
structure MPInput where
  hasFace : Bool
  alignedNow : Bool
  lightingNow : Bool
  deriving DecidableEq, Repr

/-- The `stabilityRef` record of `useMediaPipeFaceMesh.ts`: the three
stabilized booleans and their good/bad streak counters. -/
structure MPState where
  face : Bool
  align : Bool
  light : Bool
  faceGood : ℕ
  faceBad : ℕ
  alignGood : ℕ
  alignBad : ℕ
  lightGood : ℕ
  lightBad : ℕ
  deriving DecidableEq, Repr

/-- The initial `stabilityRef` value: everything false / zero. -/
def mpInit : MPState := ⟨false, false, false, 0, 0, 0, 0, 0, 0⟩

/-- One stabilizer update of `onMediaPipeResults`: the has-face branch caps
each streak at its threshold, zeroes the opposite streak, and applies the
set-true check before the set-false check; the no-face branch bumps the face
bad streak and, at `STREAK_OFF`, forces all three stabilized booleans false
while leaving the align/light streak counters untouched. -/
def mpStep (s : MPState) (i : MPInput) : MPState :=
  if i.hasFace then
    let faceGood := min STREAK_ON (s.faceGood + 1)
    let face := if faceGood ≥ STREAK_ON then true else s.face
    let alignGood := if i.alignedNow then min STREAK_ON (s.alignGood + 1) else 0
    let alignBad := if i.alignedNow then 0 else min STREAK_OFF (s.alignBad + 1)
    let align1 := if alignGood ≥ STREAK_ON then true else s.align
    let align := if alignBad ≥ STREAK_OFF then false else align1
    let lightGood := if i.lightingNow then min STREAK_ON (s.lightGood + 1) else 0
    let lightBad := if i.lightingNow then 0 else min STREAK_OFF (s.lightBad + 1)
    let light1 := if lightGood ≥ STREAK_ON then true else s.light
    let light := if lightBad ≥ STREAK_OFF then false else light1
    ⟨face, align, light, faceGood, 0, alignGood, alignBad, lightGood, lightBad⟩
  else
    let faceBad := min STREAK_OFF (s.faceBad + 1)
    if faceBad ≥ STREAK_OFF then
      ⟨false, false, false, 0, faceBad, s.alignGood, s.alignBad, s.lightGood, s.lightBad⟩
    else
      ⟨s.face, s.align, s.light, 0, faceBad, s.alignGood, s.alignBad, s.lightGood, s.lightBad⟩

/-- Running the stabilizer over a sequence of frames. -/
def mpRun (s : MPState) (l : List MPInput) : MPState := l.foldl mpStep s

/-- Length of the maximal suffix of `l` whose elements all satisfy `p`:
the number of trailing consecutive readings of one polarity. -/
def trailingCount (p : α → Bool) (l : List α) : ℕ := (l.reverse.takeWhile p).length

/-- The two scan stages of `ScanPage.tsx` (`type ScanStage`). -/
inductive ScanStage where
  | alignment
  | capture
  deriving DecidableEq, Repr

/-- The capture-flow state of `ScanPage.tsx`: store step and images, the
scan stage, `stableStatus.isReady`, `captureLockRef`, `stabilityCounterRef`,
`badFrameCounterRef`, `stabilityProgress`, plus a flag for a capture that
has been triggered but whose async `handleCapture` has not completed yet.
Images are recorded by the step index at which they were captured
(0 = center, 1 = left, 2 = right). -/
structure ScanState where
  step : ℕ
  stage : ScanStage
  ready : Bool
  lock : Bool
  counter : ℕ
  badFrames : ℕ
  progress : ℤ
  images : List ℕ
  pending : Bool
  deriving DecidableEq, Repr

/-- The initial scan state. -/
def scanInit : ScanState := ⟨0, .alignment, false, false, 0, 0, 0, [], false⟩

/-- The threshold check at the end of each stability-engine tick: at 45
frames, become ready (and, from the alignment stage, move to the capture
stage — the 500 ms transition delay of the source is collapsed); below 45,
losing readiness also releases the capture lock. -/
def checkThreshold (s : ScanState) : ScanState :=
  if s.counter ≥ 45 then
    if s.ready = false then
      match s.stage with
      | .alignment => { s with ready := true, stage := .capture }
      | .capture => { s with ready := true }
    else s
  else
    if s.ready = true then { s with ready := false, lock := false } else s

/-- One tick of the position-aware stability engine interval in
`ScanPage.tsx`, given `allConditionsMet = cond`: good conditions reset the
bad-frame buffer, bump the streak and set the clamped progress; bad
conditions bump the buffer and, only past 3 buffered bad frames and with a
positive streak, decrement the streak by 2 and set the (unclamped!)
progress, resetting the buffer when the streak hits 0. -/
def scanTick (cond : Bool) (s : ScanState) : ScanState :=
  if cond then
    let counter := s.counter + 1
    let progress := min 100 (jsRound ((counter : ℚ) / 45 * 100))
    checkThreshold { s with badFrames := 0, counter := counter, progress := progress }
  else
    let badFrames := s.badFrames + 1
    if badFrames > 3 ∧ s.counter > 0 then
      let counter := s.counter - 2
      let progress := jsRound ((counter : ℚ) / 45 * 100)
      let badFrames2 := if counter = 0 then 0 else badFrames
      checkThreshold { s with counter := counter, progress := progress, badFrames := badFrames2 }
    else
      checkThreshold { s with badFrames := badFrames }

/-- `allConditionsMet` of the stability engine tick: face detected AND
lighting good AND nose aligned with the current target. -/
def allConditionsMet (faceDetected lightingGood : Bool) (landmarks : List Landmark)
    (pos : CapturePosition) (innerWidth : ℚ) : Bool :=
  faceDetected && lightingGood && isNoseAlignedWithTarget landmarks pos innerWidth

/-- The guard of the automatic-capture effect in `ScanPage.tsx`:
`stableStatus.isReady && !captureLockRef.current && !isComplete &&
scanStage === 'capture'` (the session has 3 required positions). -/
def captureGuard (s : ScanState) : Bool :=
  s.ready && !s.lock && decide (s.step < 3) && decide (s.stage = ScanStage.capture)

/-- The step-change effect of `ScanPage.tsx` (useEffect on
`currentCaptureStep`): releases the capture lock, zeroes both counters,
clears readiness and progress, and returns to the alignment stage only when
the new step is 0. -/
def stepChangeReset (s : ScanState) : ScanState :=
  let stage := if s.step = 0 then ScanStage.alignment else s.stage
  { s with lock := false, counter := 0, badFrames := 0, ready := false, progress := 0,
           stage := stage }

/-- `resetScan` from `ScanPage.tsx`: clears the captured images and step,
both counters, readiness, progress, the capture lock and the stage; an
in-flight capture timeout is not cancelled by the source, so `pending` is
preserved. -/
def resetScan (s : ScanState) : ScanState := { scanInit with pending := s.pending }

/-- The events that drive the capture flow: a stability tick with the given
combined condition, a run of the automatic-capture effect, completion of the
in-flight `handleCapture`, `handleBack`, and `resetScan`/`handleRestart`. -/
inductive ScanEv where
  | tick (cond : Bool)
  | captureCheck
  | captureDone
  | back
  | reset
  deriving DecidableEq, Repr

/-- Event semantics; the second component counts emitted capture triggers.
`captureCheck` fires at most the guarded branch (setting the lock and the
in-flight flag); `captureDone` performs `handleCapture`'s visible effect
(append the image for the current step, advance the step — the store sets
the step to the new image count and `setCurrentCaptureStep` then overwrites
it with step + 1) followed by the step-change effect; `back` at a positive
step decrements it (keeping the captured images) and triggers the
step-change effect, at step 0 it clears the images and leaves the screen. -/
def scanEvStep (s : ScanState) : ScanEv → ScanState × ℕ
  | .tick cond => (scanTick cond s, 0)
  | .captureCheck =>
      if captureGuard s then ({ s with lock := true, pending := true }, 1) else (s, 0)
  | .captureDone =>
      if s.pending then
        (stepChangeReset
          { s with images := s.images ++ [s.step], step := s.step + 1, pending := false }, 0)
      else (s, 0)
  | .back =>
      if s.step > 0 then (stepChangeReset { s with step := s.step - 1 }, 0)
      else ({ s with images := [], step := 0 }, 0)
  | .reset => (resetScan s, 0)

/-- Running the capture flow over a list of events, accumulating the number
of capture triggers emitted. -/
def scanRun (s : ScanState) : List ScanEv → ScanState × ℕ
  | [] => (s, 0)
  | e :: es =>
    let r1 := scanEvStep s e
    let r2 := scanRun r1.1 es
    (r2.1, r1.2 + r2.2)

/-- The combined pipeline state: the scan page's capture flow together with
the face-mesh hook's stabilizer record. -/
structure PipeState where
  scan : ScanState
  mp : MPState
  deriving DecidableEq, Repr

/-- The effect of `resetScan` on the combined pipeline state: the source
resets only the scan page's refs and state; nothing in `resetScan` reaches
the hook's `stabilityRef`. -/
def resetScanFull (p : PipeState) : PipeState := { p with scan := resetScan p.scan }

/-- Iterated bad-condition stability ticks. -/
def applyBadTicks : ℕ → ScanState → ScanState
  | 0, s => s
  | k + 1, s => scanTick false (applyBadTicks k s)

/-- The invariant of the stability engine: readiness implies the streak is at
the 45-frame threshold. -/
def scanInv (s : ScanState) : Prop := s.ready = true → 45 ≤ s.counter

/-- A frame with a face, acceptable pose and good lighting. -/
def goodTick : MPInput := ⟨true, true, true⟩

/-- A frame with no face detected. -/
def noFaceTick : MPInput := ⟨false, false, false⟩

/-- Five good frames followed by three no-face frames: enough to turn every
stabilized signal on and then lose the face. -/
def c2Trace : List MPInput := List.replicate 5 goodTick ++ List.replicate 3 noFaceTick

/-- A full capture of the first angle, a back navigation, and a second full
capture of the same angle. -/
def c1Trace : List ScanEv :=
  List.replicate 45 (ScanEv.tick true) ++
    [ScanEv.captureCheck, ScanEv.captureDone, ScanEv.back] ++
    List.replicate 45 (ScanEv.tick true) ++ [ScanEv.captureCheck, ScanEv.captureDone]

/-- 48 good ticks (three past the 45-frame threshold) followed by 4 bad
ticks, reaching the decrement path of the stability engine. -/
def c7Trace : List ScanEv :=
  List.replicate 48 (ScanEv.tick true) ++ List.replicate 4 (ScanEv.tick false)

/-- A trivial instantiation of the JS `Math` functions, enough to evaluate
any code path that never inspects their output. -/
def mTrivial : JsMath := ⟨fun _ _ => 0, fun _ => 0, 0⟩

/-- An instantiation whose `sqrt` returns 4.083 everywhere: a sound
approximation of `Math.sqrt` at 50/3. -/
def mSqrtApprox : JsMath := ⟨fun _ _ => 0, fun _ => 4083 / 1000, 0⟩

/-- A single opaque-white-ish RGBA pixel with luminance exactly 100. -/
def pixelData1 : List ℕ := [100, 100, 100, 255]

/-- 346 landmarks, all at the origin: just enough for the lighting indices. -/
def landmarks346 : List Landmark := List.replicate 346 ⟨0, 0, 0⟩

/-- A state of the capture stage with the streak at threshold, ready, and
the capture lock free. -/
def readyState : ScanState := ⟨0, .capture, true, false, 45, 0, 100, [], false⟩

/-- A mid-session state with an accumulated streak of 10 and no buffered bad
frames. -/
def streakState : ScanState := ⟨0, .alignment, false, false, 10, 0, 22, [], false⟩

/-- A stabilizer state with every signal on and the face bad streak one tick
short of the OFF threshold. -/
def mpPreLoss : MPState := ⟨true, true, true, 5, 2, 5, 0, 5, 0⟩

/-- Two landmarks with the nose tip at normalized x = 1/4. -/
def noseLms1 : List Landmark := [⟨0, 0, 0⟩, ⟨1 / 4, 0, 0⟩]

/-- Two landmarks with the nose tip at normalized x = 1/5, further left. -/
def noseLms2 : List Landmark := [⟨0, 0, 0⟩, ⟨1 / 5, 0, 0⟩]

/-- A pipeline state after ten good stability ticks and five good stabilizer
frames: every stabilized signal is on with saturated streaks. -/
def pipeAfterSession : PipeState :=
  ⟨(scanRun scanInit (List.replicate 10 (ScanEv.tick true))).1,
    mpRun mpInit (List.replicate 5 goodTick)⟩

/-! ### Helper lemmas -/

theorem checkThreshold_counter (s : ScanState) : (checkThreshold s).counter = s.counter := by
  unfold checkThreshold
  split_ifs <;> cases s.stage <;> simp

theorem checkThreshold_badFrames (s : ScanState) :
    (checkThreshold s).badFrames = s.badFrames := by
  unfold checkThreshold
  split_ifs <;> cases s.stage <;> simp

theorem checkThreshold_step (s : ScanState) : (checkThreshold s).step = s.step := by
  unfold checkThreshold
  split_ifs <;> cases s.stage <;> simp

theorem checkThreshold_images (s : ScanState) : (checkThreshold s).images = s.images := by
  unfold checkThreshold
  split_ifs <;> cases s.stage <;> simp

theorem checkThreshold_pending (s : ScanState) : (checkThreshold s).pending = s.pending := by
  unfold checkThreshold
  split_ifs <;> cases s.stage <;> simp

theorem checkThreshold_progress (s : ScanState) : (checkThreshold s).progress = s.progress := by
  unfold checkThreshold
  split_ifs <;> cases s.stage <;> simp

theorem checkThreshold_ready (s : ScanState) :
    (checkThreshold s).ready = decide (45 ≤ s.counter) := by
  unfold checkThreshold
  split_ifs <;> cases s.stage <;> simp_all

theorem checkThreshold_lock (s : ScanState) :
    (checkThreshold s).lock = if s.counter < 45 ∧ s.ready = true then false else s.lock := by
  unfold checkThreshold
  split_ifs <;> cases s.stage <;> simp_all <;> omega

theorem checkThreshold_inv (s : ScanState) : scanInv (checkThreshold s) := by
  intro h
  rw [checkThreshold_ready] at h
  rw [checkThreshold_counter]
  simpa using h

theorem scanTick_inv (cond : Bool) (s : ScanState) : scanInv (scanTick cond s) := by
  simp only [scanTick]
  split_ifs <;> apply checkThreshold_inv

theorem scanTick_step (cond : Bool) (s : ScanState) : (scanTick cond s).step = s.step := by
  simp only [scanTick]
  split_ifs <;> simp [checkThreshold_step]

theorem scanTick_images (cond : Bool) (s : ScanState) :
    (scanTick cond s).images = s.images := by
  simp only [scanTick]
  split_ifs <;> simp [checkThreshold_images]

theorem scanTick_true_counters (s : ScanState) :
    (scanTick true s).counter = s.counter + 1 ∧ (scanTick true s).badFrames = 0 := by
  simp [scanTick, checkThreshold_counter, checkThreshold_badFrames]

theorem scanTick_false_counters (s : ScanState) :
    (scanTick false s).counter =
      (if s.badFrames + 1 > 3 ∧ s.counter > 0 then s.counter - 2 else s.counter) ∧
    (scanTick false s).badFrames =
      (if s.badFrames + 1 > 3 ∧ s.counter > 0 then
        (if s.counter - 2 = 0 then 0 else s.badFrames + 1) else s.badFrames + 1) := by
  simp only [scanTick, Bool.false_eq_true, if_false]
  split_ifs <;>
    simp_all [checkThreshold_counter, checkThreshold_badFrames]

theorem scanTick_false_progress (s : ScanState) :
    (scanTick false s).progress =
      (if s.badFrames + 1 > 3 ∧ s.counter > 0 then
        jsRound (((s.counter - 2 : ℕ) : ℚ) / 45 * 100) else s.progress) := by
  simp only [scanTick, Bool.false_eq_true, if_false]
  split_ifs <;> simp_all [checkThreshold_progress]

theorem scanTick_true_lock (s : ScanState) (hInv : scanInv s) :
    (scanTick true s).lock = s.lock := by
  simp only [scanTick, if_true]
  rw [checkThreshold_lock]
  split_ifs with h
  · obtain ⟨h1, h2⟩ := h
    simp only at h1 h2
    have := hInv h2
    omega
  · rfl

theorem scanRun_append_fst (l1 l2 : List ScanEv) (s : ScanState) :
    (scanRun s (l1 ++ l2)).1 = (scanRun (scanRun s l1).1 l2).1 := by
  induction l1 generalizing s with
  | nil => simp [scanRun]
  | cons e es ih => simp only [List.cons_append, scanRun]; exact ih _

/-- Under a run of sustained-readiness events (good ticks and capture-effect
runs), a taken capture lock stays taken and no further capture fires. -/
theorem scanRun_locked (evs : List ScanEv) :
    ∀ s : ScanState, (∀ e ∈ evs, e = ScanEv.tick true ∨ e = ScanEv.captureCheck) →
      scanInv s → s.lock = true →
      (scanRun s evs).1.lock = true ∧ (scanRun s evs).2 = 0 := by
  induction evs with
  | nil => intro s _ _ hl; simpa [scanRun]
  | cons e es ih =>
    intro s hevs hInv hl
    have hes : ∀ x ∈ es, x = ScanEv.tick true ∨ x = ScanEv.captureCheck :=
      fun x hx => hevs x (List.mem_cons_of_mem _ hx)
    rcases hevs e (List.mem_cons_self _ _) with rfl | rfl
    · simp only [scanRun, scanEvStep]
      have h2 := ih (scanTick true s) hes (scanTick_inv true s)
        (by rw [scanTick_true_lock s hInv]; exact hl)
      simpa using h2
    · have hg : captureGuard s = false := by simp [captureGuard, hl]
      simp only [scanRun, scanEvStep, hg, if_false]
      simpa using ih s hes hInv hl

theorem trailingCount_nil (p : α → Bool) : trailingCount p [] = 0 := rfl

theorem trailingCount_concat (p : α → Bool) (l : List α) (a : α) :
    trailingCount p (l ++ [a]) = if p a then trailingCount p l + 1 else 0 := by
  simp only [trailingCount, List.reverse_append, List.reverse_cons, List.reverse_nil,
    List.nil_append, List.cons_append, List.takeWhile_cons]
  cases h : p a <;> simp [h]

theorem mpRun_concat (l : List MPInput) (i : MPInput) (s : MPState) :
    mpRun s (l ++ [i]) = mpStep (mpRun s l) i := by
  simp [mpRun, List.foldl_append]

/-- Closed form of the six streak counters across one stabilizer update. -/
theorem mpStep_counters (s : MPState) (i : MPInput) :
    (mpStep s i).faceGood = (if i.hasFace then min 5 (s.faceGood + 1) else 0) ∧
    (mpStep s i).faceBad = (if i.hasFace then 0 else min 3 (s.faceBad + 1)) ∧
    (mpStep s i).alignGood =
      (if i.hasFace then (if i.alignedNow then min 5 (s.alignGood + 1) else 0) else s.alignGood) ∧
    (mpStep s i).alignBad =
      (if i.hasFace then (if i.alignedNow then 0 else min 3 (s.alignBad + 1)) else s.alignBad) ∧
    (mpStep s i).lightGood =
      (if i.hasFace then (if i.lightingNow then min 5 (s.lightGood + 1) else 0) else s.lightGood) ∧
    (mpStep s i).lightBad =
      (if i.hasFace then (if i.lightingNow then 0 else min 3 (s.lightBad + 1)) else s.lightBad) := by
  rcases i with ⟨hf, an, ln⟩
  cases hf <;> cases an <;> cases ln <;>
    simp [mpStep, STREAK_ON, STREAK_OFF, apply_ite MPState.faceGood, apply_ite MPState.faceBad,
      apply_ite MPState.alignGood, apply_ite MPState.alignBad, apply_ite MPState.lightGood,
      apply_ite MPState.lightBad]

/-- The streak counters of the stabilizer measure trailing runs of raw
readings: the face streaks over all frames, the align/light streaks over the
face-present frames only (capped at the respective threshold). -/
theorem mp_streak_counters (l : List MPInput) :
    (mpRun mpInit l).faceGood = min 5 (trailingCount (fun i => i.hasFace) l) ∧
    (mpRun mpInit l).faceBad = min 3 (trailingCount (fun i => !i.hasFace) l) ∧
    (mpRun mpInit l).alignGood =
      min 5 (trailingCount (fun i => i.alignedNow) (l.filter fun i => i.hasFace)) ∧
    (mpRun mpInit l).alignBad =
      min 3 (trailingCount (fun i => !i.alignedNow) (l.filter fun i => i.hasFace)) ∧
    (mpRun mpInit l).lightGood =
      min 5 (trailingCount (fun i => i.lightingNow) (l.filter fun i => i.hasFace)) ∧
    (mpRun mpInit l).lightBad =
      min 3 (trailingCount (fun i => !i.lightingNow) (l.filter fun i => i.hasFace)) := by
  induction l using List.reverseRecOn with
  | nil => simp [mpRun, mpInit, trailingCount]
  | append_singleton l a ih =>
    obtain ⟨h1, h2, h3, h4, h5, h6⟩ := ih
    obtain ⟨hg, hb, hag, hab, hlg, hlb⟩ := mpStep_counters (mpRun mpInit l) a
    rw [mpRun_concat, hg, hb, hag, hab, hlg, hlb, h1, h2, h3, h4, h5, h6]
    simp only [trailingCount_concat, List.filter_append, List.filter_cons, List.filter_nil]
    cases hf : a.hasFace <;> cases han : a.alignedNow <;> cases hln : a.lightingNow <;>
      simp [hf, han, hln, trailingCount_concat] <;> omega

/-- Necessary conditions for each stabilized boolean to flip on one update:
turning on needs a face-present reading of the signal with its good streak
one short of `STREAK_ON`; turning off needs the corresponding bad streak one
short of `STREAK_OFF`, or (for align/light) the face bad streak there. -/
theorem mpStep_flips (s : MPState) (i : MPInput) :
    (s.face = false → (mpStep s i).face = true → i.hasFace = true ∧ 4 ≤ s.faceGood) ∧
    (s.face = true → (mpStep s i).face = false → i.hasFace = false ∧ 2 ≤ s.faceBad) ∧
    (s.align = false → (mpStep s i).align = true →
      i.hasFace = true ∧ i.alignedNow = true ∧ 4 ≤ s.alignGood) ∧
    (s.align = true → (mpStep s i).align = false →
      (i.hasFace = false ∧ 2 ≤ s.faceBad) ∨
        (i.hasFace = true ∧ i.alignedNow = false ∧ 2 ≤ s.alignBad)) ∧
    (s.light = false → (mpStep s i).light = true →
      i.hasFace = true ∧ i.lightingNow = true ∧ 4 ≤ s.lightGood) ∧
    (s.light = true → (mpStep s i).light = false →
      (i.hasFace = false ∧ 2 ≤ s.faceBad) ∨
        (i.hasFace = true ∧ i.lightingNow = false ∧ 2 ≤ s.lightBad)) := by
  rcases i with ⟨hf, an, ln⟩
  cases hf <;> cases an <;> cases ln <;>
    simp only [mpStep, STREAK_ON, STREAK_OFF, Bool.false_eq_true, if_false, if_true,
      apply_ite MPState.face, apply_ite MPState.align, apply_ite MPState.light] <;>
    split_ifs <;> simp_all

/-! ### C2: stabilizer hysteresis -/

/-- C2 (counterexample): the claim "the stabilized boolean flips from false
to true only after at least 5 consecutive good raw readings, and from true
to false only after at least 3 consecutive bad raw readings" is false for
the lighting signal.  After 5 good frames and 3 no-face frames, a single
good frame flips lighting back to true (1 consecutive good raw reading, not
5), because the no-face branch leaves `lightGood` saturated at 5; and the
forced flip to false at the face OFF threshold happens with 0 consecutive
bad lighting readings among face-present frames. -/
theorem c2_hysteresis_counterexample :
    (mpRun mpInit c2Trace).light = false ∧
    (mpStep (mpRun mpInit c2Trace) goodTick).light = true ∧
    trailingCount (fun j => j.hasFace && j.lightingNow) (c2Trace ++ [goodTick]) = 1 ∧
    (mpRun mpInit (List.replicate 5 goodTick ++ List.replicate 2 noFaceTick)).light = true ∧
    trailingCount (fun j => !j.lightingNow) (c2Trace.filter fun j => j.hasFace) = 0 := by
  decide

/-- C2 (amended): flips of a stabilized signal still require full streaks,
but for alignment and lighting the streaks are counted over face-present
frames only (face-absent frames neither advance nor reset them), and a flip
to false can also be forced by 3 trailing no-face frames.  Concretely, on
the run from the initial state: a face flip to true needs 5 trailing
face-present frames; a face flip to false needs 3 trailing no-face frames;
an align/light flip to true needs 5 trailing good readings among the
face-present frames; an align/light flip to false needs 3 trailing no-face
frames or 3 trailing bad readings among the face-present frames. -/
theorem c2_stabilizer_hysteresis (l : List MPInput) (i : MPInput) :
    ((mpRun mpInit l).face = false → (mpRun mpInit (l ++ [i])).face = true →
      5 ≤ trailingCount (fun j => j.hasFace) (l ++ [i])) ∧
    ((mpRun mpInit l).face = true → (mpRun mpInit (l ++ [i])).face = false →
      3 ≤ trailingCount (fun j => !j.hasFace) (l ++ [i])) ∧
    ((mpRun mpInit l).align = false → (mpRun mpInit (l ++ [i])).align = true →
      5 ≤ trailingCount (fun j => j.alignedNow) ((l ++ [i]).filter fun j => j.hasFace)) ∧
    ((mpRun mpInit l).align = true → (mpRun mpInit (l ++ [i])).align = false →
      3 ≤ trailingCount (fun j => !j.hasFace) (l ++ [i]) ∨
        3 ≤ trailingCount (fun j => !j.alignedNow) ((l ++ [i]).filter fun j => j.hasFace)) ∧
    ((mpRun mpInit l).light = false → (mpRun mpInit (l ++ [i])).light = true →
      5 ≤ trailingCount (fun j => j.lightingNow) ((l ++ [i]).filter fun j => j.hasFace)) ∧
    ((mpRun mpInit l).light = true → (mpRun mpInit (l ++ [i])).light = false →
      3 ≤ trailingCount (fun j => !j.hasFace) (l ++ [i]) ∨
        3 ≤ trailingCount (fun j => !j.lightingNow) ((l ++ [i]).filter fun j => j.hasFace)) := by
  obtain ⟨c1, c2, c3, c4, c5, c6⟩ := mp_streak_counters l
  obtain ⟨f1, f2, f3, f4, f5, f6⟩ := mpStep_flips (mpRun mpInit l) i
  rw [mpRun_concat]
  refine ⟨?_, ?_, ?_, ?_, ?_, ?_⟩
  · intro h0 h1
    obtain ⟨hf, hg⟩ := f1 h0 h1
    rw [trailingCount_concat]
    simp only [hf, if_true]
    omega
  · intro h0 h1
    obtain ⟨hf, hb⟩ := f2 h0 h1
    rw [trailingCount_concat]
    simp only [hf, Bool.not_false, if_true]
    omega
  · intro h0 h1
    obtain ⟨hf, ha, hg⟩ := f3 h0 h1
    rw [List.filter_append, List.filter_cons, List.filter_nil, hf]
    simp only [if_true, trailingCount_concat, ha]
    omega
  · intro h0 h1
    rcases f4 h0 h1 with ⟨hf, hb⟩ | ⟨hf, ha, hb⟩
    · left
      rw [trailingCount_concat]
      simp only [hf, Bool.not_false, if_true]
      omega
    · right
      rw [List.filter_append, List.filter_cons, List.filter_nil, hf]
      simp only [if_true, trailingCount_concat, ha, Bool.not_false]
      omega
  · intro h0 h1
    obtain ⟨hf, hl, hg⟩ := f5 h0 h1
    rw [List.filter_append, List.filter_cons, List.filter_nil, hf]
    simp only [if_true, trailingCount_concat, hl]
    omega
  · intro h0 h1
    rcases f6 h0 h1 with ⟨hf, hb⟩ | ⟨hf, hl, hb⟩
    · left
      rw [trailingCount_concat]
      simp only [hf, Bool.not_false, if_true]
      omega
    · right
      rw [List.filter_append, List.filter_cons, List.filter_nil, hf]
      simp only [if_true, trailingCount_concat, hl, Bool.not_false]
      omega

/-- Witness for C2 (amended): a concrete flip of the face signal after 5
face-present frames. -/
theorem c2_stabilizer_hysteresis_witness :
    5 ≤ trailingCount (fun j => j.hasFace) (List.replicate 4 goodTick ++ [goodTick]) :=
  (c2_stabilizer_hysteresis (List.replicate 4 goodTick) goodTick).1 (by decide) (by decide)

/-! ### C4: face loss forces all stabilized signals false -/

/-- C4: on the no-face tick at which the face bad streak reaches its OFF
threshold of 3 (here stated both for one update from a state whose face bad
streak is one short, and for any three consecutive no-face updates from an
arbitrary state), the stabilized face, align and light signals are all false
on that same tick, regardless of the align/light streaks. -/
theorem c4_face_loss_forces_false (s t : MPState) (i i1 i2 i3 : MPInput)
    (hface : i.hasFace = false) (hstreak : 2 ≤ s.faceBad)
    (h1 : i1.hasFace = false) (h2 : i2.hasFace = false) (h3 : i3.hasFace = false) :
    ((mpStep s i).face = false ∧ (mpStep s i).align = false ∧ (mpStep s i).light = false) ∧
    ((mpRun t [i1, i2, i3]).face = false ∧ (mpRun t [i1, i2, i3]).align = false ∧
      (mpRun t [i1, i2, i3]).light = false) := by
  constructor
  · have hcond : min STREAK_OFF (s.faceBad + 1) ≥ STREAK_OFF := by
      simp [STREAK_OFF]; omega
    simp [mpStep, hface, hcond]
  · simp only [mpRun, List.foldl_cons, List.foldl_nil]
    have e1 := (mpStep_counters t i1).2.1
    simp only [h1, Bool.false_eq_true, if_false] at e1
    have e2 := (mpStep_counters (mpStep t i1) i2).2.1
    simp only [h2, Bool.false_eq_true, if_false] at e2
    have hb : 2 ≤ (mpStep (mpStep t i1) i2).faceBad := by
      rw [e2, e1]; omega
    generalize mpStep (mpStep t i1) i2 = u at hb ⊢
    have hcond : min STREAK_OFF (u.faceBad + 1) ≥ STREAK_OFF := by
      simp [STREAK_OFF]; omega
    simp [mpStep, h3, hcond]

/-- Witness for C4: losing the face on the third consecutive no-face frame
kills saturated align and light signals on that very tick. -/
theorem c4_face_loss_forces_false_witness :
    (mpStep mpPreLoss noFaceTick).face = false ∧
    (mpStep mpPreLoss noFaceTick).align = false ∧
    (mpStep mpPreLoss noFaceTick).light = false :=
  (c4_face_loss_forces_false mpPreLoss mpPreLoss noFaceTick noFaceTick noFaceTick noFaceTick
    (by decide) (by decide) (by decide) (by decide) (by decide)).1

/-! ### C8: session reset -/

/-- C8 (counterexample): the claim that after `resetScan` every stabilized
signal and its streak counters are back to false/zero is refuted: from a
reachable pipeline state with all signals on, `resetScan` (which touches
only the scan screen's refs and state) leaves the hook's stabilizer record
untouched, with face and light still true and a saturated good streak. -/
theorem c8_reset_counterexample :
    (resetScanFull pipeAfterSession).mp.face = true ∧
    (resetScanFull pipeAfterSession).mp.light = true ∧
    (resetScanFull pipeAfterSession).mp.faceGood = 5 := by
  decide

/-- C8 (amended): `resetScan` does fully reset the capture-flow state (the
streak counter, the bad-tick counter, the capture lock, the progress, the
stage, the readiness flag, the step and the captured images), but it leaves
the face-mesh hook's stabilizer state entirely unchanged, so the stabilized
signals and their hysteresis streaks survive into the next session. -/
theorem c8_reset_scan_state (p : PipeState) :
    (resetScanFull p).scan.counter = 0 ∧
    (resetScanFull p).scan.badFrames = 0 ∧
    (resetScanFull p).scan.lock = false ∧
    (resetScanFull p).scan.progress = 0 ∧
    (resetScanFull p).scan.stage = ScanStage.alignment ∧
    (resetScanFull p).scan.ready = false ∧
    (resetScanFull p).scan.step = 0 ∧
    (resetScanFull p).scan.images = [] ∧
    (resetScanFull p).mp = p.mp := by
  simp [resetScanFull, resetScan, scanInit]

/-! ### C1: capture idempotence -/

/-- C1 (counterexample): the claim that each required angle has at most one
captured image throughout a session is refuted via back-navigation: capture
the center angle, press Back (which decrements the step but keeps the stored
image), and capture again — the session now holds two images for step 0
(center). -/
theorem c1_duplicate_angle_counterexample :
    (scanRun scanInit c1Trace).1.images = [0, 0] ∧
    ¬ ((scanRun scanInit c1Trace).1.images.count 0 ≤ 1) := by
  decide

/-- C1 (amended): under sustained readiness — any run of good-condition
stability ticks and automatic-capture effect runs — the capture machine
triggers at most one capture, the lock making the trigger idempotent; and
from a completed session (step at or past 3) such a run triggers none.  The
at-most-one-image-per-angle invariant itself, however, only holds for runs
without back-navigation (see the counterexample). -/
theorem c1_capture_idempotent (s : ScanState) (evs : List ScanEv)
    (hevs : ∀ e ∈ evs, e = ScanEv.tick true ∨ e = ScanEv.captureCheck)
    (hInv : s.ready = true → 45 ≤ s.counter) :
    (scanRun s evs).2 ≤ 1 ∧ (3 ≤ s.step → (scanRun s evs).2 = 0) := by
  induction evs generalizing s with
  | nil => simp [scanRun]
  | cons e es ih =>
    have hes : ∀ x ∈ es, x = ScanEv.tick true ∨ x = ScanEv.captureCheck :=
      fun x hx => hevs x (List.mem_cons_of_mem _ hx)
    rcases hevs e (List.mem_cons_self _ _) with rfl | rfl
    · simp only [scanRun, scanEvStep]
      have h2 := ih (scanTick true s) hes (scanTick_inv true s)
      refine ⟨by simpa using h2.1, fun hstep => ?_⟩
      have hstep2 : 3 ≤ (scanTick true s).step := by rw [scanTick_step]; exact hstep
      simpa using h2.2 hstep2
    · by_cases hg : captureGuard s = true
      · simp only [scanRun, scanEvStep, hg, if_true]
        have hInv2 : scanInv ({ s with lock := true, pending := true } : ScanState) := by
          intro h
          exact hInv h
        have h0 := scanRun_locked es ({ s with lock := true, pending := true }) hes hInv2 rfl
        refine ⟨by simp [h0.2], fun hstep => ?_⟩
        simp only [captureGuard, Bool.and_eq_true, decide_eq_true_eq] at hg
        omega
      · have hg2 : captureGuard s = false := by simpa using hg
        simp only [scanRun, scanEvStep, hg2, if_false]
        simpa using ih s hes hInv

/-- Witness for C1 (amended): from a ready capture-stage state, a run with
two capture-effect runs and a good tick triggers exactly at most one
capture. -/
theorem c1_capture_idempotent_witness :
    (scanRun readyState
        [ScanEv.captureCheck, ScanEv.tick true, ScanEv.captureCheck]).2 ≤ 1 :=
  (c1_capture_idempotent readyState
    [ScanEv.captureCheck, ScanEv.tick true, ScanEv.captureCheck]
    (by decide) (by decide)).1

/-! ### C3: forgiveness buffer -/

/-- Closed form for the streak counter along a run of consecutive bad ticks
started with an empty bad-frame buffer: unchanged for the first 3 ticks,
then decremented by 2 per tick, floored at 0. -/
theorem applyBadTicks_counter (s : ScanState) (h : s.badFrames = 0) (k : ℕ) :
    (applyBadTicks k s).counter = s.counter - 2 * (k - 3) := by
  suffices H : ∀ n, (applyBadTicks n s).counter = s.counter - 2 * (n - 3) ∧
      (0 < (applyBadTicks n s).counter → (applyBadTicks n s).badFrames = n) from (H k).1
  intro n
  induction n with
  | zero => simp [applyBadTicks, h]
  | succ n ihn =>
    obtain ⟨hc, hb⟩ := ihn
    obtain ⟨tc, tb⟩ := scanTick_false_counters (applyBadTicks n s)
    simp only [applyBadTicks] at *
    by_cases h0 : 0 < (applyBadTicks n s).counter
    · have hbn := hb h0
      rw [hbn] at tc tb
      constructor
      · rw [tc]
        split_ifs <;> omega
      · intro hpos
        rw [tc] at hpos
        rw [tb]
        split_ifs at hpos ⊢ <;> omega
    · have hc0 : (applyBadTicks n s).counter = 0 := by omega
      rw [hc0] at tc
      simp only [Nat.lt_irrefl, and_false, if_false] at tc
      constructor
      · rw [tc]
        omega
      · intro hpos
        rw [tc] at hpos
        omega

/-- C3: when the combined condition fails, the streak counter is unchanged
for up to 3 consecutive bad ticks; from the 4th consecutive bad tick on it
is decremented by 2 per tick, floored at 0 (never reset outright); a single
bad tick never erases progress; and a good tick resets the bad-tick run. -/
theorem c3_forgiveness_buffer (s : ScanState) (h : s.badFrames = 0)
    (f g : Bool) (landmarks : List Landmark) (pos : CapturePosition) (innerWidth : ℚ) :
    (∀ k, k ≤ 3 → (applyBadTicks k s).counter = s.counter) ∧
    (∀ k, (applyBadTicks k s).counter = s.counter - 2 * (k - 3)) ∧
    (allConditionsMet f g landmarks pos innerWidth = false →
      (scanTick (allConditionsMet f g landmarks pos innerWidth) s).counter = s.counter) ∧
    (∀ t : ScanState, (scanTick true t).badFrames = 0) := by
  refine ⟨?_, applyBadTicks_counter s h, ?_, ?_⟩
  · intro k hk
    have := applyBadTicks_counter s h k
    omega
  · intro hcond
    rw [hcond]
    have := (scanTick_false_counters s).1
    rw [h] at this
    simpa using this
  · intro t
    exact (scanTick_true_counters t).2

/-- Witness for C3: from a state with streak 10 and empty buffer, five
consecutive bad ticks leave the counter at 10 - 2·2 = 6; the first three
leave it at 10. -/
theorem c3_forgiveness_buffer_witness :
    (applyBadTicks 3 streakState).counter = 10 ∧ (applyBadTicks 5 streakState).counter = 6 := by
  have h := c3_forgiveness_buffer streakState rfl true true [] CapturePosition.center 0
  constructor
  · exact h.1 3 (by decide)
  · have := h.2.1 5
    simpa using this

/-! ### C7: stability progress range -/

/-- C7: the claim that the stability progress shown to the UI always lies in
[0, 100] is refuted by the code: after 48 good ticks (the streak is not
capped at the 45 threshold) and 4 bad ticks, the decrement path — which
unlike the accumulation path applies no upper clamp — publishes a progress
of 102. -/
theorem c7_progress_exceeds_100 :
    (scanRun scanInit c7Trace).1.progress = 102 ∧
    ¬ ((scanRun scanInit c7Trace).1.progress ≤ 100) := by
  have hsplit : c7Trace =
      (List.replicate 48 (ScanEv.tick true) ++ List.replicate 3 (ScanEv.tick false)) ++
        [ScanEv.tick false] := by
    decide
  have hc : (scanRun scanInit
      (List.replicate 48 (ScanEv.tick true) ++ List.replicate 3 (ScanEv.tick false))).1.counter
      = 48 := by decide
  have hb : (scanRun scanInit
      (List.replicate 48 (ScanEv.tick true) ++ List.replicate 3 (ScanEv.tick false))).1.badFrames
      = 3 := by decide
  rw [hsplit, scanRun_append_fst]
  set p := (scanRun scanInit
    (List.replicate 48 (ScanEv.tick true) ++ List.replicate 3 (ScanEv.tick false))).1 with hp
  simp only [scanRun, scanEvStep]
  rw [scanTick_false_progress, hc, hb, if_pos (by norm_num)]
  have h46 : ((48 - 2 : ℕ) : ℚ) = 46 := by norm_num
  rw [h46]
  have h102 : jsRound ((46 : ℚ) / 45 * 100) = 102 := by
    rw [jsRound, Int.floor_eq_iff]
    norm_num
  rw [h102]
  norm_num

/-! ### C5: estimators degrade safely on malformed input -/

/-- C5: both estimators return their neutral result on malformed input: the
head-pose estimator returns the neutral pose when the landmark list is empty
(subsuming JS null) or shorter than the largest required index (362) or a
frame dimension is non-positive; the lighting estimator returns the bad
result when the pixel buffer is empty, the landmarks are missing or too
short for the largest required index (345), or a frame dimension is
non-positive.  Neither touches the arithmetic of `JsMath` on these paths. -/
theorem c5_estimators_safe (m : JsMath) (landmarks : List Landmark) (W H : ℚ)
    (data : List ℕ) (lms2 : List Landmark) (W2 H2 : ℤ)
    (h1 : landmarks = [] ∨ landmarks.length < 362 ∨ W ≤ 0 ∨ H ≤ 0)
    (h2 : data = [] ∨ lms2 = [] ∨ lms2.length ≤ 345 ∨ W2 ≤ 0 ∨ H2 ≤ 0) :
    calculateHeadPose m landmarks W H = neutralPose ∧
    calculateLightingQuality m data lms2 W2 H2 = badLighting := by
  constructor
  · simp only [calculateHeadPose]
    split_ifs with hA hB
    · rfl
    · rfl
    · exfalso
      push_neg at hA
      obtain ⟨hl0, hW, hH⟩ := hA
      simp only [requiredIndices, NOSE_TIP, CHIN, LEFT_EYE_LEFT, RIGHT_EYE_RIGHT,
        LEFT_MOUTH, RIGHT_MOUTH, List.any_cons, List.any_nil, Bool.or_eq_true,
        decide_eq_true_eq, not_or, gt_iff_lt, not_lt] at hB
      rcases h1 with h | h | h | h
      · exact hl0 (by simp [h])
      · omega
      · linarith
      · linarith
  · simp only [calculateLightingQuality]
    split_ifs with hA hB hC
    · rfl
    · rfl
    · rfl
    · exfalso
      push_neg at hA
      obtain ⟨hl0, hW, hH⟩ := hA
      simp only [FOREHEAD_CENTER, LEFT_CHEEK, RIGHT_CHEEK, not_or, gt_iff_lt, not_lt] at hC
      rcases h2 with h | h | h | h | h
      · subst h
        simp at hB
      · exact hl0 (by simp [h])
      · omega
      · linarith
      · linarith

/-- Witness for C5: both estimators at trivially malformed inputs. -/
theorem c5_estimators_safe_witness :
    calculateHeadPose mTrivial [] 1 1 = neutralPose ∧
    calculateLightingQuality mTrivial [] [] 1 1 = badLighting :=
  c5_estimators_safe mTrivial [] 1 1 [] [] 1 1 (Or.inl rfl) (Or.inl rfl)

/-! ### C6: nose alignment target tests -/

/-- C6: with a nose-tip landmark present, the center test is the two-sided
band |noseX - 0.5·width| < 50, the left test holds exactly when the nose's
screen x is at or past 0.4·width (and right symmetrically at 0.6·width), and
both one-sided tests are monotone: moving the nose further past the line
keeps them true. -/
theorem c6_nose_alignment (lms lms2 : List Landmark) (nose nose2 : Landmark) (W : ℚ)
    (h : lms[1]? = some nose) (h2 : lms2[1]? = some nose2) :
    (isNoseAlignedWithTarget lms CapturePosition.center W = true ↔
      |nose.x * W - W * (1 / 2)| < 50) ∧
    (isNoseAlignedWithTarget lms CapturePosition.left W = true ↔
      nose.x * W ≤ W * (2 / 5)) ∧
    (isNoseAlignedWithTarget lms CapturePosition.right W = true ↔
      W * (3 / 5) ≤ nose.x * W) ∧
    (nose2.x * W ≤ nose.x * W → isNoseAlignedWithTarget lms CapturePosition.left W = true →
      isNoseAlignedWithTarget lms2 CapturePosition.left W = true) ∧
    (nose.x * W ≤ nose2.x * W → isNoseAlignedWithTarget lms CapturePosition.right W = true →
      isNoseAlignedWithTarget lms2 CapturePosition.right W = true) := by
  have hlen : ¬ lms.length = 0 := by
    intro h0
    rw [List.length_eq_zero] at h0
    subst h0
    simp at h
  have hlen2 : ¬ lms2.length = 0 := by
    intro h0
    rw [List.length_eq_zero] at h0
    subst h0
    simp at h2
  refine ⟨?_, ?_, ?_, ?_, ?_⟩ <;>
    simp only [isNoseAlignedWithTarget, hlen, hlen2, if_false, h, h2, ge_iff_le,
      decide_eq_true_eq]
  · intro hmono hleft
    linarith
  · intro hmono hright
    linarith

/-- Witness for C6: a nose already past the left line stays aligned when it
moves further left. -/
theorem c6_nose_alignment_witness :
    isNoseAlignedWithTarget noseLms2 CapturePosition.left 1000 = true := by
  have h := c6_nose_alignment noseLms1 noseLms2 ⟨1 / 4, 0, 0⟩ ⟨1 / 5, 0, 0⟩ 1000 rfl rfl
  exact h.2.2.2.1 (by norm_num) (h.2.1.mpr (by norm_num))

/-! ### C9 and C10: lighting scoring -/

theorem jsRound_intCast (n : ℤ) : jsRound (n : ℚ) = n := by
  rw [jsRound, add_comm, Int.floor_add_int]
  norm_num

theorem le_jsRound_of_le (n : ℤ) (x : ℚ) (h : (n : ℚ) ≤ x) : n ≤ jsRound x := by
  rw [jsRound]
  exact Int.le_floor.mpr (by linarith)

theorem jsRound_le_of_le (n : ℤ) (x : ℚ) (h : x ≤ (n : ℚ)) : jsRound x ≤ n := by
  rw [jsRound]
  have h1 : ⌊x + 1 / 2⌋ ≤ ⌊(n : ℚ) + 1 / 2⌋ := Int.floor_le_floor (by linarith)
  have h2 : ⌊(n : ℚ) + 1 / 2⌋ = n := by
    rw [add_comm, Int.floor_add_int]
    norm_num
  omega

theorem calculateBrightnessScore_mem (b : ℚ) :
    calculateBrightnessScore b = 20 ∨ calculateBrightnessScore b = 40 ∨
    calculateBrightnessScore b = 60 ∨ calculateBrightnessScore b = 80 ∨
    calculateBrightnessScore b = 100 := by
  unfold calculateBrightnessScore
  split_ifs <;> simp

theorem calculateEvennessScore_mem (sd : ℚ) :
    calculateEvennessScore sd = 20 ∨ calculateEvennessScore sd = 40 ∨
    calculateEvennessScore sd = 60 ∨ calculateEvennessScore sd = 80 ∨
    calculateEvennessScore sd = 100 := by
  unfold calculateEvennessScore
  split_ifs <;> simp

theorem calculateBrightnessScore_bounds (b : ℚ) :
    20 ≤ calculateBrightnessScore b ∧ calculateBrightnessScore b ≤ 100 := by
  rcases calculateBrightnessScore_mem b with h | h | h | h | h <;> rw [h] <;> norm_num

theorem calculateEvennessScore_bounds (sd : ℚ) :
    20 ≤ calculateEvennessScore sd ∧ calculateEvennessScore sd ≤ 100 := by
  rcases calculateEvennessScore_mem sd with h | h | h | h | h <;> rw [h] <;> norm_num

theorem getD_le_255 (data : List ℕ) (hdata : ∀ v ∈ data, v ≤ 255) (n : ℕ) :
    data.getD n 0 ≤ 255 := by
  rw [List.getD_eq_getElem?_getD]
  cases hx : data[n]? with
  | none => simp
  | some v =>
    have hv : v ∈ data := List.getElem?_mem hx
    simpa using hdata v hv

theorem luminanceAt_bounds (data : List ℕ) (hdata : ∀ v ∈ data, v ≤ 255)
    (W x y : ℤ) : 0 ≤ luminanceAt data W x y ∧ luminanceAt data W x y ≤ 255 := by
  unfold luminanceAt
  have b0 := getD_le_255 data hdata (((y * W + x) * 4).toNat)
  have b1 := getD_le_255 data hdata (((y * W + x) * 4).toNat + 1)
  have b2 := getD_le_255 data hdata (((y * W + x) * 4).toNat + 2)
  have c0 : ((data.getD (((y * W + x) * 4).toNat) 0 : ℕ) : ℚ) ≤ 255 := by exact_mod_cast b0
  have c1 : ((data.getD (((y * W + x) * 4).toNat + 1) 0 : ℕ) : ℚ) ≤ 255 := by exact_mod_cast b1
  have c2 : ((data.getD (((y * W + x) * 4).toNat + 2) 0 : ℕ) : ℚ) ≤ 255 := by exact_mod_cast b2
  constructor
  · positivity
  · rw [div_le_iff₀ (by norm_num)]
    have n0 : (0 : ℚ) ≤ (data.getD (((y * W + x) * 4).toNat) 0 : ℕ) := by positivity
    linarith

theorem guardedAvg_bounds (l : List ℚ) (h : ∀ q ∈ l, 0 ≤ q ∧ q ≤ 255) :
    0 ≤ (if l.length > 0 then l.sum / l.length else 0) ∧
    (if l.length > 0 then l.sum / l.length else 0) ≤ 255 := by
  split_ifs with hlen
  · have hpos : (0 : ℚ) < l.length := by exact_mod_cast hlen
    constructor
    · exact div_nonneg (List.sum_nonneg fun q hq => (h q hq).1) (le_of_lt hpos)
    · rw [div_le_iff₀ hpos]
      have hs := List.sum_le_card_nsmul l 255 (fun q hq => (h q hq).2)
      rw [nsmul_eq_mul] at hs
      linarith
  · norm_num

theorem calculateRegionBrightness_bounds (data : List ℕ)
    (hdata : ∀ v ∈ data, v ≤ 255) (region : Region) (W H : ℤ) :
    0 ≤ calculateRegionBrightness data region W H ∧
    calculateRegionBrightness data region W H ≤ 255 := by
  have hl : ∀ q ∈ (regionPixels region W H).map
      (fun p => luminanceAt data W p.1 p.2), 0 ≤ q ∧ q ≤ 255 := by
    intro q hq
    rw [List.mem_map] at hq
    obtain ⟨p, _, rfl⟩ := hq
    exact luminanceAt_bounds data hdata W p.1 p.2
  exact guardedAvg_bounds _ hl

/-- C9: on the three region brightness values [150, 155, 145], the lighting
pipeline computes mean 150 (brightness score 100, the optimal band),
population variance 50/3 whose square root is ≈ 4.08 (strictly between 4.08
and 4.09 for any sqrt accurate to within 1/100 on squares), evenness score
100, overall score 100, and isGood = true since 20 < 150 < 240. -/
theorem c9_lighting_scenario (m : JsMath)
    (hpos : 0 ≤ m.sqrt (50 / 3))
    (happrox : |(m.sqrt (50 / 3)) ^ 2 - 50 / 3| ≤ 1 / 100) :
    (lightingFromRegionBrightness m [150, 155, 145]).brightness = 150 ∧
    calculateBrightnessScore 150 = 100 ∧
    calculateVariance [150, 155, 145] = 50 / 3 ∧
    408 / 100 < (lightingFromRegionBrightness m [150, 155, 145]).standardDeviation ∧
    (lightingFromRegionBrightness m [150, 155, 145]).standardDeviation < 409 / 100 ∧
    (lightingFromRegionBrightness m [150, 155, 145]).evenness = 100 ∧
    (lightingFromRegionBrightness m [150, 155, 145]).score = 100 ∧
    (lightingFromRegionBrightness m [150, 155, 145]).isGood = true := by
  have hvar : calculateVariance [150, 155, 145] = 50 / 3 := by
    unfold calculateVariance
    norm_num
  rw [abs_le] at happrox
  have hσl : 408 / 100 < m.sqrt (50 / 3) := by nlinarith [happrox.1, happrox.2]
  have hσu : m.sqrt (50 / 3) < 409 / 100 := by nlinarith [happrox.1, happrox.2]
  have hbs : calculateBrightnessScore 150 = 100 := by
    unfold calculateBrightnessScore
    norm_num
  have hes : calculateEvennessScore (m.sqrt (50 / 3)) = 100 := by
    unfold calculateEvennessScore
    rw [if_pos (by linarith)]
  have h150 : jsRound (150 : ℚ) = 150 := by
    have := jsRound_intCast 150
    norm_num at this
    exact this
  have h100 : jsRound (100 : ℚ) = 100 := by
    have := jsRound_intCast 100
    norm_num at this
    exact this
  simp only [lightingFromRegionBrightness, hvar]
  norm_num [hbs, hes, h150, h100]
  exact ⟨by linarith, by linarith⟩

/-- Witness for C9: the approximate-sqrt hypotheses hold for the constant
4.083 approximation. -/
theorem c9_lighting_scenario_witness :
    (lightingFromRegionBrightness mSqrtApprox [150, 155, 145]).score = 100 ∧
    (lightingFromRegionBrightness mSqrtApprox [150, 155, 145]).isGood = true := by
  have h := c9_lighting_scenario mSqrtApprox (by norm_num [mSqrtApprox])
    (by norm_num [mSqrtApprox, abs_le])
  exact ⟨h.2.2.2.2.2.2.1, h.2.2.2.2.2.2.2⟩

/-- C10: the two sub-scores always lie in {20, 40, 60, 80, 100}; and on
every input that passes `calculateLightingQuality`'s validation (non-empty
landmarks covering the largest required index, positive dimensions,
non-empty byte buffer), the returned overall score is at least 20 (and at
most 100), the returned evenness is one of the five band values, and the
returned brightness lies in [0, 255].  A returned score of 0 is therefore
only possible on the invalid-input path. -/
theorem c10_lighting_score_floor :
    (∀ b : ℚ, calculateBrightnessScore b = 20 ∨ calculateBrightnessScore b = 40 ∨
      calculateBrightnessScore b = 60 ∨ calculateBrightnessScore b = 80 ∨
      calculateBrightnessScore b = 100) ∧
    (∀ sd : ℚ, calculateEvennessScore sd = 20 ∨ calculateEvennessScore sd = 40 ∨
      calculateEvennessScore sd = 60 ∨ calculateEvennessScore sd = 80 ∨
      calculateEvennessScore sd = 100) ∧
    (∀ (m : JsMath) (data : List ℕ) (landmarks : List Landmark) (W H : ℤ),
      landmarks ≠ [] → 346 ≤ landmarks.length → 0 < W → 0 < H → data ≠ [] →
      (∀ v ∈ data, v ≤ 255) →
      20 ≤ (calculateLightingQuality m data landmarks W H).score ∧
      (calculateLightingQuality m data landmarks W H).score ≤ 100 ∧
      ((calculateLightingQuality m data landmarks W H).evenness = 20 ∨
        (calculateLightingQuality m data landmarks W H).evenness = 40 ∨
        (calculateLightingQuality m data landmarks W H).evenness = 60 ∨
        (calculateLightingQuality m data landmarks W H).evenness = 80 ∨
        (calculateLightingQuality m data landmarks W H).evenness = 100) ∧
      0 ≤ (calculateLightingQuality m data landmarks W H).brightness ∧
      (calculateLightingQuality m data landmarks W H).brightness ≤ 255) := by
  refine ⟨calculateBrightnessScore_mem, calculateEvennessScore_mem, ?_⟩
  intro m data landmarks W H hne hlen hW hH hdne hdata
  have hg1 : ¬ (landmarks.length = 0 ∨ W ≤ 0 ∨ H ≤ 0) := by
    push_neg
    refine ⟨?_, by linarith, by linarith⟩
    simpa [List.length_eq_zero] using hne
  have hg2 : ¬ data.length = 0 := by
    simpa [List.length_eq_zero] using hdne
  have hg3 : ¬ ((FOREHEAD_CENTER : ℤ) > (landmarks.length : ℤ) - 1 ∨
      (LEFT_CHEEK : ℤ) > (landmarks.length : ℤ) - 1 ∨
      (RIGHT_CHEEK : ℤ) > (landmarks.length : ℤ) - 1) := by
    simp only [FOREHEAD_CENTER, LEFT_CHEEK, RIGHT_CHEEK, not_or, gt_iff_lt, not_lt]
    refine ⟨?_, ?_, ?_⟩ <;> push_cast <;> omega
  have hrw : calculateLightingQuality m data landmarks W H =
      lightingFromRegionBrightness m
        [calculateRegionBrightness data
          (getLandmarkRegion (landmarks.getD FOREHEAD_CENTER ⟨0, 0, 0⟩) W H 30) W H,
         calculateRegionBrightness data
          (getLandmarkRegion (landmarks.getD LEFT_CHEEK ⟨0, 0, 0⟩) W H 25) W H,
         calculateRegionBrightness data
          (getLandmarkRegion (landmarks.getD RIGHT_CHEEK ⟨0, 0, 0⟩) W H 25) W H] := by
    simp only [calculateLightingQuality]
    rw [if_neg hg1, if_neg hg2, if_neg hg3]
  rw [hrw]
  obtain ⟨hb1l, hb1u⟩ := calculateRegionBrightness_bounds data hdata
    (getLandmarkRegion (landmarks.getD FOREHEAD_CENTER ⟨0, 0, 0⟩) W H 30) W H
  obtain ⟨hb2l, hb2u⟩ := calculateRegionBrightness_bounds data hdata
    (getLandmarkRegion (landmarks.getD LEFT_CHEEK ⟨0, 0, 0⟩) W H 25) W H
  obtain ⟨hb3l, hb3u⟩ := calculateRegionBrightness_bounds data hdata
    (getLandmarkRegion (landmarks.getD RIGHT_CHEEK ⟨0, 0, 0⟩) W H 25) W H
  generalize hB1 : calculateRegionBrightness data
    (getLandmarkRegion (landmarks.getD FOREHEAD_CENTER ⟨0, 0, 0⟩) W H 30) W H = B1 at *
  generalize hB2 : calculateRegionBrightness data
    (getLandmarkRegion (landmarks.getD LEFT_CHEEK ⟨0, 0, 0⟩) W H 25) W H = B2 at *
  generalize hB3 : calculateRegionBrightness data
    (getLandmarkRegion (landmarks.getD RIGHT_CHEEK ⟨0, 0, 0⟩) W H 25) W H = B3 at *
  simp only [lightingFromRegionBrightness, List.sum_cons, List.sum_nil, List.length_cons,
    List.length_nil]
  obtain ⟨hsl, hsu⟩ := calculateBrightnessScore_bounds ((B1 + (B2 + (B3 + 0))) / (0 + 1 + 1 + 1))
  obtain ⟨hel, heu⟩ := calculateEvennessScore_bounds
    (m.sqrt (calculateVariance [B1, B2, B3]))
  refine ⟨?_, ?_, ?_, ?_, ?_⟩
  · apply le_jsRound_of_le
    push_cast
    linarith
  · apply jsRound_le_of_le
    push_cast
    linarith
  · have j20 : jsRound (20 : ℚ) = 20 := by
      have := jsRound_intCast 20
      norm_num at this
      exact this
    have j40 : jsRound (40 : ℚ) = 40 := by
      have := jsRound_intCast 40
      norm_num at this
      exact this
    have j60 : jsRound (60 : ℚ) = 60 := by
      have := jsRound_intCast 60
      norm_num at this
      exact this
    have j80 : jsRound (80 : ℚ) = 80 := by
      have := jsRound_intCast 80
      norm_num at this
      exact this
    have j100 : jsRound (100 : ℚ) = 100 := by
      have := jsRound_intCast 100
      norm_num at this
      exact this
    rcases calculateEvennessScore_mem (m.sqrt (calculateVariance [B1, B2, B3]))
      with h | h | h | h | h <;>
      rw [h] <;>
      norm_num [j20, j40, j60, j80, j100]
  · apply le_jsRound_of_le
    push_cast
    linarith
  · apply jsRound_le_of_le
    push_cast
    linarith

/-- Witness for C10: a 1×1 frame with one mid-grey pixel and 346 origin
landmarks passes validation and gets a score of at least 20 and a
brightness in range. -/
theorem c10_lighting_score_floor_witness :
    20 ≤ (calculateLightingQuality mTrivial pixelData1 landmarks346 1 1).score ∧
    (calculateLightingQuality mTrivial pixelData1 landmarks346 1 1).brightness ≤ 255 := by
  have h := c10_lighting_score_floor.2.2 mTrivial pixelData1 landmarks346 1 1
    (by simp [landmarks346]) (by simp [landmarks346]) (by norm_num) (by norm_num)
    (by simp [pixelData1]) (by decide)
  exact ⟨h.1, h.2.2.2.2⟩

end Skinverse
